import Mathlib

/-!
Shallow embedding of the MovieRec user-data storage and access-control
subsystem (the Supabase SQL setup script: table definitions with CHECK,
UNIQUE and ON DELETE CASCADE constraints, row-level-security policies, and
the `handle_new_user` trigger that provisions a profile on signup).

Identities are `Nat` (opaque UUIDs).  `media_type`, `list_type`, `media_id`
are `String` as in the SQL (TEXT columns guarded by CHECK constraints).
Timestamps are `Nat` clock values.  A caller is `Option Nat`: `auth.uid()`
is the caller's id, or `none` for an unauthenticated request.
-/

/-- Error taxonomy of the storage and policy layer. -/
inductive DBError where
  | UniqueViolation
  | CheckViolation
  | AuthorizationDenied
  | NotFound
  | ForeignKeyViolation
deriving DecidableEq, Repr

/-- CHECK (media_type IN ('movie', 'book', 'show')). -/
def mediaTypeOk (s : String) : Bool :=
  s = "movie" || s = "book" || s = "show"

/-- CHECK (list_type IN ('watchlist', 'favorites', 'reading_list', 'completed')). -/
def listTypeOk (s : String) : Bool :=
  s = "watchlist" || s = "favorites" || s = "reading_list" || s = "completed"

/-- CHECK (rating >= 1 AND rating <= 10). -/
def ratingOk (r : Int) : Bool :=
  1 ≤ r && r ≤ 10

/-- A row of `public.profiles`. -/
structure Profile where
  id : Nat
  username : Option String
  avatar_url : Option String
  created_at : Nat
  updated_at : Nat
deriving DecidableEq, Repr

/-- A row of `public.reviews`. -/
structure Review where
  id : Nat
  user_id : Nat
  media_type : String
  media_id : String
  rating : Int
  review_text : Option String
  created_at : Nat
  updated_at : Nat
deriving DecidableEq, Repr

/-- A row of `public.user_lists`. -/
structure ListItem where
  id : Nat
  user_id : Nat
  list_type : String
  media_type : String
  media_id : String
  title : String
  image_url : Option String
  created_at : Nat
deriving DecidableEq, Repr

/-- The shared storage state: the external identity table (`auth.users`)
and the three application tables. -/
structure DB where
  users : List Nat
  profiles : List Profile
  reviews : List Review
  user_lists : List ListItem
deriving DecidableEq, Repr

/-- The empty database. -/
def DB.empty : DB := ⟨[], [], [], []⟩

/-- Primary-key well-formedness: row ids are pairwise distinct in each table. -/
def WF (db : DB) : Prop :=
  (db.profiles.map Profile.id).Nodup ∧
  (db.reviews.map Review.id).Nodup ∧
  (db.user_lists.map ListItem.id).Nodup

instance : DecidablePred WF := fun db => by
  unfold WF; infer_instance

/-- Transactional semantics of a single statement: a failed statement
leaves the database unchanged. -/
def commit (db : DB) : Except DBError DB → DB
  | .ok db2 => db2
  | .error _ => db

/-- Read one profile row.  Policy "Profiles are viewable by everyone":
USING (true), so any caller may read any existing profile. -/
def readProfile (db : DB) (_caller : Option Nat) (pid : Nat) : Except DBError Profile :=
  match db.profiles.find? (fun p => p.id == pid) with
  | none => .error .NotFound
  | some p => .ok p

/-- Read one review row.  Policy "Reviews are viewable by everyone":
USING (true), so any caller may read any existing review. -/
def readReview (db : DB) (_caller : Option Nat) (rid : Nat) : Except DBError Review :=
  match db.reviews.find? (fun r => r.id == rid) with
  | none => .error .NotFound
  | some r => .ok r

/-- Read one list-item row.  Policy "Users can view own lists":
USING (auth.uid() = user_id); a caller that is not the owner (including an
unauthenticated caller) is denied. -/
def readListItem (db : DB) (caller : Option Nat) (lid : Nat) : Except DBError ListItem :=
  match db.user_lists.find? (fun l => l.id == lid) with
  | none => .error .NotFound
  | some l => if caller = some l.user_id then .ok l else .error .AuthorizationDenied

/-- Does some profile already carry this (non-null) username?  The UNIQUE
constraint on `username TEXT UNIQUE` only ever compares non-null values. -/
def usernameTaken (db : DB) : Option String → Bool
  | none => false
  | some u => db.profiles.any (fun p => p.username == some u)

/-- Insert a profile row.  Policy "Users can insert own profile":
WITH CHECK (auth.uid() = id); then the FK to `auth.users`, the primary key
on `id`, and the UNIQUE constraint on `username`. -/
def insertProfile (db : DB) (caller : Option Nat) (p : Profile) : Except DBError DB :=
  if caller = some p.id then
    if p.id ∈ db.users then
      if db.profiles.any (fun x => x.id == p.id) then .error .UniqueViolation
      else if usernameTaken db p.username then .error .UniqueViolation
      else .ok { db with profiles := p :: db.profiles }
    else .error .ForeignKeyViolation
  else .error .AuthorizationDenied

/-- Update a profile row's username and avatar.  Policy "Users can update
own profile": USING (auth.uid() = id); the UNIQUE constraint on `username`
is re-checked against the other rows. -/
def updateProfile (db : DB) (caller : Option Nat) (pid : Nat)
    (newUsername newAvatar : Option String) : Except DBError DB :=
  match db.profiles.find? (fun p => p.id == pid) with
  | none => .error .NotFound
  | some p =>
    if caller = some p.id then
      if (match newUsername with
          | none => false
          | some u => db.profiles.any (fun x => x.id != p.id && x.username == some u)) then
        .error .UniqueViolation
      else
        .ok { db with profiles :=
          db.profiles.map (fun x =>
            if x.id = pid then { x with username := newUsername, avatar_url := newAvatar } else x) }
    else .error .AuthorizationDenied

/-- Insert a review row.  Policy "Users can create own reviews":
WITH CHECK (auth.uid() = user_id); then the CHECK constraints on
`media_type` and `rating`, the FK to `auth.users`, the primary key, and
UNIQUE(user_id, media_type, media_id). -/
def insertReview (db : DB) (caller : Option Nat) (r : Review) : Except DBError DB :=
  if caller = some r.user_id then
    if mediaTypeOk r.media_type && ratingOk r.rating then
      if r.user_id ∈ db.users then
        if db.reviews.any (fun x => x.id == r.id) then .error .UniqueViolation
        else if db.reviews.any (fun x =>
            x.user_id == r.user_id && x.media_type == r.media_type && x.media_id == r.media_id) then
          .error .UniqueViolation
        else .ok { db with reviews := r :: db.reviews }
      else .error .ForeignKeyViolation
    else .error .CheckViolation
  else .error .AuthorizationDenied

/-- Update a review row's rating and text.  Policy "Users can update own
reviews": USING (auth.uid() = user_id); the CHECK constraint on `rating`
is re-checked on the new value. -/
def updateReview (db : DB) (caller : Option Nat) (rid : Nat)
    (newRating : Int) (newText : Option String) : Except DBError DB :=
  match db.reviews.find? (fun r => r.id == rid) with
  | none => .error .NotFound
  | some r =>
    if caller = some r.user_id then
      if ratingOk newRating then
        .ok { db with reviews :=
          db.reviews.map (fun x =>
            if x.id = rid then { x with rating := newRating, review_text := newText } else x) }
      else .error .CheckViolation
    else .error .AuthorizationDenied

/-- Delete a review row.  Policy "Users can delete own reviews":
USING (auth.uid() = user_id). -/
def deleteReview (db : DB) (caller : Option Nat) (rid : Nat) : Except DBError DB :=
  match db.reviews.find? (fun r => r.id == rid) with
  | none => .error .NotFound
  | some r =>
    if caller = some r.user_id then
      .ok { db with reviews := db.reviews.filter (fun x => x.id != rid) }
    else .error .AuthorizationDenied

/-- Insert a list-item row.  Policy "Users can create own list items":
WITH CHECK (auth.uid() = user_id); then the CHECK constraints on
`list_type` and `media_type`, the FK, the primary key, and
UNIQUE(user_id, list_type, media_type, media_id). -/
def insertListItem (db : DB) (caller : Option Nat) (l : ListItem) : Except DBError DB :=
  if caller = some l.user_id then
    if listTypeOk l.list_type && mediaTypeOk l.media_type then
      if l.user_id ∈ db.users then
        if db.user_lists.any (fun x => x.id == l.id) then .error .UniqueViolation
        else if db.user_lists.any (fun x =>
            x.user_id == l.user_id && x.list_type == l.list_type &&
            x.media_type == l.media_type && x.media_id == l.media_id) then
          .error .UniqueViolation
        else .ok { db with user_lists := l :: db.user_lists }
      else .error .ForeignKeyViolation
    else .error .CheckViolation
  else .error .AuthorizationDenied

/-- Delete a list-item row.  Policy "Users can delete own list items":
USING (auth.uid() = user_id). -/
def deleteListItem (db : DB) (caller : Option Nat) (lid : Nat) : Except DBError DB :=
  match db.user_lists.find? (fun l => l.id == lid) with
  | none => .error .NotFound
  | some l =>
    if caller = some l.user_id then
      .ok { db with user_lists := db.user_lists.filter (fun x => x.id != lid) }
    else .error .AuthorizationDenied

/-- split_part(email, '@', 1): the text before the first '@' (the whole
string when no '@' occurs). -/
def localPart (e : String) : String :=
  ⟨e.data.takeWhile (fun c => c ≠ '@')⟩

/-- COALESCE(NEW.raw_user_meta_data->>'username', split_part(NEW.email, '@', 1)):
the metadata username when present, else the local part of the email when
the email is present, else NULL. -/
def derivedUsername (email metaUsername : Option String) : Option String :=
  match metaUsername with
  | some u => some u
  | none => email.map localPart

/-- Identity creation together with the `handle_new_user` trigger
(`on_auth_user_created`, AFTER INSERT ON auth.users) in one transaction:
insert the identity row, then insert the provisioned profile
(id = NEW.id, username derived, created_at = now).  The primary key of
`auth.users`, the primary key of `profiles` and the UNIQUE constraint on
`username` can each abort the whole transaction, leaving neither row. -/
def createUser (db : DB) (uid : Nat) (email metaUsername : Option String)
    (now : Nat) : Except DBError DB :=
  if uid ∈ db.users then .error .UniqueViolation
  else if db.profiles.any (fun x => x.id == uid) then .error .UniqueViolation
  else if usernameTaken db (derivedUsername email metaUsername) then .error .UniqueViolation
  else .ok
    { db with
      users := uid :: db.users,
      profiles :=
        { id := uid, username := derivedUsername email metaUsername,
          avatar_url := none, created_at := now, updated_at := now } :: db.profiles }

/-- Identity deletion with ON DELETE CASCADE on profiles.id, reviews.user_id
and user_lists.user_id: one atomic step removes the identity row, its
profile, all its reviews and all its list items. -/
def deleteUser (db : DB) (uid : Nat) : DB :=
  { users := db.users.filter (fun u => u != uid),
    profiles := db.profiles.filter (fun p => p.id != uid),
    reviews := db.reviews.filter (fun r => r.user_id != uid),
    user_lists := db.user_lists.filter (fun l => l.user_id != uid) }

/-- The states reachable from the empty database through the operations of
the subsystem. -/
inductive Reachable : DB → Prop where
  | empty : Reachable DB.empty
  | createUser {db db' uid email metaUsername now} : Reachable db →
      createUser db uid email metaUsername now = .ok db' → Reachable db'
  | deleteUser {db uid} : Reachable db → Reachable (deleteUser db uid)
  | insertProfile {db db' caller p} : Reachable db →
      insertProfile db caller p = .ok db' → Reachable db'
  | updateProfile {db db' caller pid nu na} : Reachable db →
      updateProfile db caller pid nu na = .ok db' → Reachable db'
  | insertReview {db db' caller r} : Reachable db →
      insertReview db caller r = .ok db' → Reachable db'
  | updateReview {db db' caller rid nr nt} : Reachable db →
      updateReview db caller rid nr nt = .ok db' → Reachable db'
  | deleteReview {db db' caller rid} : Reachable db →
      deleteReview db caller rid = .ok db' → Reachable db'
  | insertListItem {db db' caller l} : Reachable db →
      insertListItem db caller l = .ok db' → Reachable db'
  | deleteListItem {db db' caller lid} : Reachable db →
      deleteListItem db caller lid = .ok db' → Reachable db'

/-! ### Helper lemmas -/

/-- In a list whose keys are pairwise distinct, `find?` by the key of a
member returns that member. -/
theorem find?_key_of_mem {α : Type} (f : α → Nat) :
    ∀ {l : List α}, (l.map f).Nodup → ∀ {x : α}, x ∈ l →
      l.find? (fun y => f y == f x) = some x := by
  intro l
  induction l with
  | nil => intro _ x hx; cases hx
  | cons a t ih =>
    intro hnd x hx
    rw [List.map_cons, List.nodup_cons] at hnd
    rcases List.mem_cons.mp hx with rfl | hxt
    · simp [List.find?]
    · have hne : f a ≠ f x := fun he => hnd.1 (he ▸ List.mem_map_of_mem f hxt)
      rw [List.find?_cons]
      rw [show (f a == f x) = false from beq_eq_false_iff_ne.mpr hne]
      exact ih hnd.2 hxt

theorem insertReview_ok_eq {db db' : DB} {caller : Option Nat} {r : Review}
    (h : insertReview db caller r = .ok db') :
    db'.users = db.users ∧ db'.profiles = db.profiles ∧ db'.user_lists = db.user_lists ∧
    db'.reviews = r :: db.reviews ∧ ratingOk r.rating = true ∧ mediaTypeOk r.media_type = true := by
  unfold insertReview at h
  split_ifs at h with hc hck hfk hpk hdup <;> cases h
  exact ⟨rfl, rfl, rfl, rfl, (Bool.and_eq_true _ _ |>.mp hck).2, (Bool.and_eq_true _ _ |>.mp hck).1⟩

theorem updateReview_ok_eq {db db' : DB} {caller : Option Nat} {rid : Nat}
    {nr : Int} {nt : Option String}
    (h : updateReview db caller rid nr nt = .ok db') :
    db'.users = db.users ∧ db'.profiles = db.profiles ∧ db'.user_lists = db.user_lists ∧
    ratingOk nr = true ∧
    db'.reviews = db.reviews.map (fun x =>
      if x.id = rid then { x with rating := nr, review_text := nt } else x) := by
  unfold updateReview at h
  split at h
  · cases h
  · split_ifs at h with hc hck <;> cases h
    exact ⟨rfl, rfl, rfl, hck, rfl⟩

theorem deleteReview_ok_eq {db db' : DB} {caller : Option Nat} {rid : Nat}
    (h : deleteReview db caller rid = .ok db') :
    db'.users = db.users ∧ db'.profiles = db.profiles ∧ db'.user_lists = db.user_lists ∧
    db'.reviews = db.reviews.filter (fun x => x.id != rid) := by
  unfold deleteReview at h
  split at h
  · cases h
  · split_ifs at h with hc <;> cases h
    exact ⟨rfl, rfl, rfl, rfl⟩

theorem insertListItem_ok_eq {db db' : DB} {caller : Option Nat} {l : ListItem}
    (h : insertListItem db caller l = .ok db') :
    db'.users = db.users ∧ db'.profiles = db.profiles ∧ db'.reviews = db.reviews ∧
    db'.user_lists = l :: db.user_lists := by
  unfold insertListItem at h
  split_ifs at h with hc hck hfk hpk hdup <;> cases h
  exact ⟨rfl, rfl, rfl, rfl⟩

theorem deleteListItem_ok_eq {db db' : DB} {caller : Option Nat} {lid : Nat}
    (h : deleteListItem db caller lid = .ok db') :
    db'.users = db.users ∧ db'.profiles = db.profiles ∧ db'.reviews = db.reviews ∧
    db'.user_lists = db.user_lists.filter (fun x => x.id != lid) := by
  unfold deleteListItem at h
  split at h
  · cases h
  · split_ifs at h with hc <;> cases h
    exact ⟨rfl, rfl, rfl, rfl⟩

theorem insertProfile_ok_eq {db db' : DB} {caller : Option Nat} {p : Profile}
    (h : insertProfile db caller p = .ok db') :
    p.id ∈ db.users ∧ db.profiles.any (fun x => x.id == p.id) = false ∧
    db'.users = db.users ∧ db'.profiles = p :: db.profiles ∧
    db'.reviews = db.reviews ∧ db'.user_lists = db.user_lists := by
  unfold insertProfile at h
  split_ifs at h with hc hfk hpk hun <;> cases h
  exact ⟨hfk, by simpa using hpk, rfl, rfl, rfl, rfl⟩

theorem updateProfile_ok_eq {db db' : DB} {caller : Option Nat} {pid : Nat}
    {nu na : Option String}
    (h : updateProfile db caller pid nu na = .ok db') :
    db'.users = db.users ∧ db'.reviews = db.reviews ∧ db'.user_lists = db.user_lists ∧
    db'.profiles = db.profiles.map (fun x =>
      if x.id = pid then { x with username := nu, avatar_url := na } else x) := by
  unfold updateProfile at h
  split at h
  · cases h
  · split_ifs at h with hc hun <;> cases h
    exact ⟨rfl, rfl, rfl, rfl⟩

theorem createUser_ok_eq {db db' : DB} {uid : Nat} {email metaUsername : Option String}
    {now : Nat} (h : createUser db uid email metaUsername now = .ok db') :
    uid ∉ db.users ∧ db.profiles.any (fun x => x.id == uid) = false ∧
    db'.users = uid :: db.users ∧
    db'.profiles =
      { id := uid, username := derivedUsername email metaUsername,
        avatar_url := none, created_at := now, updated_at := now } :: db.profiles ∧
    db'.reviews = db.reviews ∧ db'.user_lists = db.user_lists := by
  unfold createUser at h
  split_ifs at h with hu hpk hun <;> cases h
  exact ⟨hu, by simpa using hpk, rfl, rfl, rfl, rfl⟩

/-- Every existing identity has exactly one profile row whose id equals the
identity's identifier. -/
def ProfilesExact (db : DB) : Prop :=
  ∀ u ∈ db.users, db.profiles.countP (fun p => p.id == u) = 1

/-- Every stored review satisfies the CHECK constraints on `rating` and
`media_type`. -/
def RowsValid (db : DB) : Prop :=
  ∀ r ∈ db.reviews, ratingOk r.rating = true ∧ mediaTypeOk r.media_type = true

/-- The two structural invariants hold in every reachable state. -/
theorem reachable_inv {db : DB} (h : Reachable db) : ProfilesExact db ∧ RowsValid db := by
  induction h with
  | empty =>
    exact ⟨fun u hu => absurd hu (by simp [DB.empty]),
           fun r hr => absurd hr (by simp [DB.empty])⟩
  | createUser hr hok ih =>
    rename_i db db' uid email metaUsername now
    obtain ⟨hu, hpk, hus, hps, hrv, hls⟩ := createUser_ok_eq hok
    constructor
    · intro u humem
      rw [hus] at humem
      rw [hps, List.countP_cons]
      rcases List.mem_cons.mp humem with rfl | humem2
      · have h0 : List.countP (fun p => p.id == u) db.profiles = 0 :=
          List.countP_eq_zero.mpr (fun a ha => List.any_eq_false.mp hpk a ha)
        simp [h0]
      · have hne : uid ≠ u := fun he => hu (he ▸ humem2)
        have h1 := ih.1 u humem2
        simp [h1, hne]
    · intro r hrm
      rw [hrv] at hrm
      exact ih.2 r hrm
  | deleteUser hr ih =>
    constructor
    · intro u humem
      simp only [deleteUser] at humem ⊢
      obtain ⟨humem2, hne⟩ := List.mem_filter.mp humem
      rw [List.countP_filter]
      rw [List.countP_congr (q := fun p => p.id == u) ?_]
      · exact ih.1 u humem2
      · intro x _
        by_cases hx : x.id = u
        · subst hx
          simp only [bne] at hne ⊢
          simp_all
        · simp [hx]
    · intro r hrm
      simp only [deleteUser] at hrm
      exact ih.2 r (List.mem_filter.mp hrm).1
  | insertProfile hr hok ih =>
    rename_i db db' caller p
    obtain ⟨hfk, hpk, hus, hps, hrv, hls⟩ := insertProfile_ok_eq hok
    have h1 := ih.1 _ hfk
    have h0 : List.countP (fun x => x.id == p.id) db.profiles = 0 :=
      List.countP_eq_zero.mpr (fun a ha => List.any_eq_false.mp hpk a ha)
    exact absurd (h0.symm.trans h1) (by decide)
  | updateProfile hr hok ih =>
    rename_i db db' caller pid nu na
    obtain ⟨hus, hrv, hls, hps⟩ := updateProfile_ok_eq hok
    constructor
    · intro u humem
      rw [hus] at humem
      rw [hps, List.countP_map]
      rw [List.countP_congr (q := fun p => p.id == u) ?_]
      · exact ih.1 u humem
      · intro x _
        by_cases hx : x.id = pid
        · simp [Function.comp, hx]
        · simp [Function.comp, hx]
    · intro r hrm
      rw [hrv] at hrm
      exact ih.2 r hrm
  | insertReview hr hok ih =>
    obtain ⟨hus, hps, hls, hrv, hrat, hmt⟩ := insertReview_ok_eq hok
    constructor
    · intro u humem
      rw [hus] at humem
      rw [hps]
      exact ih.1 u humem
    · intro x hx
      rw [hrv] at hx
      rcases List.mem_cons.mp hx with rfl | hx2
      · exact ⟨hrat, hmt⟩
      · exact ih.2 x hx2
  | updateReview hr hok ih =>
    rename_i db db' caller rid nr nt
    obtain ⟨hus, hps, hls, hrat, hrv⟩ := updateReview_ok_eq hok
    constructor
    · intro u humem
      rw [hus] at humem
      rw [hps]
      exact ih.1 u humem
    · intro x hx
      rw [hrv] at hx
      obtain ⟨y, hy, hyx⟩ := List.mem_map.mp hx
      by_cases hid : y.id = rid
      · rw [if_pos hid] at hyx
        subst hyx
        exact ⟨hrat, (ih.2 y hy).2⟩
      · rw [if_neg hid] at hyx
        subst hyx
        exact ih.2 y hy
  | deleteReview hr hok ih =>
    obtain ⟨hus, hps, hls, hrv⟩ := deleteReview_ok_eq hok
    constructor
    · intro u humem
      rw [hus] at humem
      rw [hps]
      exact ih.1 u humem
    · intro x hx
      rw [hrv] at hx
      exact ih.2 x (List.mem_filter.mp hx).1
  | insertListItem hr hok ih =>
    obtain ⟨hus, hps, hrv, hls⟩ := insertListItem_ok_eq hok
    constructor
    · intro u humem
      rw [hus] at humem
      rw [hps]
      exact ih.1 u humem
    · intro x hx
      rw [hrv] at hx
      exact ih.2 x hx
  | deleteListItem hr hok ih =>
    obtain ⟨hus, hps, hrv, hls⟩ := deleteListItem_ok_eq hok
    constructor
    · intro u humem
      rw [hus] at humem
      rw [hps]
      exact ih.1 u humem
    · intro x hx
      rw [hrv] at hx
      exact ih.2 x hx

/-! ### Claims -/

/-- Claim C1: for every identity U and every caller C (another identity or
no identity), a read of any of U's reviews issued by C succeeds, whereas a
read of any of U's list items issued by any caller other than U fails with
AuthorizationDenied: review rows are readable by everyone, list-item rows
only by their owner. -/
theorem C1_read_policy (db : DB) (hwf : WF db) :
    (∀ r ∈ db.reviews, ∀ caller : Option Nat, readReview db caller r.id = .ok r) ∧
    (∀ item ∈ db.user_lists, ∀ caller : Option Nat, caller ≠ some item.user_id →
      readListItem db caller item.id = .error .AuthorizationDenied) := by
  constructor
  · intro r hr caller
    unfold readReview
    rw [find?_key_of_mem Review.id hwf.2.1 hr]
  · intro item hmem caller hne
    unfold readListItem
    rw [find?_key_of_mem ListItem.id hwf.2.2 hmem]
    exact if_neg hne

def rev1 : Review := ⟨10, 1, "movie", "27205", 8, none, 0, 0⟩

def item1 : ListItem := ⟨20, 1, "watchlist", "movie", "27205", "Inception", none, 0⟩

def prof1 : Profile := ⟨1, some "alice", none, 0, 0⟩

def db1 : DB := ⟨[1, 2], [prof1], [rev1], [item1]⟩

theorem C1_read_policy_witness :
    WF db1 ∧
    readReview db1 none rev1.id = .ok rev1 ∧
    readListItem db1 (some 2) item1.id = .error .AuthorizationDenied :=
  ⟨by decide,
   (C1_read_policy db1 (by decide)).1 rev1 (by decide) none,
   (C1_read_policy db1 (by decide)).2 item1 (by decide) (some 2) (by decide)⟩

/-- Claim C2: for distinct identities U1 and U2, an update or a delete
issued by U2 on a review owned by U1 fails with AuthorizationDenied, and
the review row (indeed the whole database) is left unchanged. -/
theorem C2_review_owner_writes (db : DB) (hwf : WF db) (r : Review) (hr : r ∈ db.reviews)
    (u2 : Nat) (hne : u2 ≠ r.user_id) (newRating : Int) (newText : Option String) :
    updateReview db (some u2) r.id newRating newText = .error .AuthorizationDenied ∧
    deleteReview db (some u2) r.id = .error .AuthorizationDenied ∧
    commit db (updateReview db (some u2) r.id newRating newText) = db ∧
    commit db (deleteReview db (some u2) r.id) = db := by
  have hne2 : ¬ (some u2 = some r.user_id) := fun he => hne (Option.some.inj he)
  have hupd : updateReview db (some u2) r.id newRating newText = .error .AuthorizationDenied := by
    unfold updateReview
    rw [find?_key_of_mem Review.id hwf.2.1 hr]
    exact if_neg hne2
  have hdel : deleteReview db (some u2) r.id = .error .AuthorizationDenied := by
    unfold deleteReview
    rw [find?_key_of_mem Review.id hwf.2.1 hr]
    exact if_neg hne2
  exact ⟨hupd, hdel, by rw [hupd]; rfl, by rw [hdel]; rfl⟩

theorem C2_review_owner_writes_witness :
    updateReview db1 (some 2) rev1.id 5 none = .error .AuthorizationDenied ∧
    deleteReview db1 (some 2) rev1.id = .error .AuthorizationDenied ∧
    commit db1 (updateReview db1 (some 2) rev1.id 5 none) = db1 ∧
    commit db1 (deleteReview db1 (some 2) rev1.id) = db1 :=
  C2_review_owner_writes db1 (by decide) rev1 (by decide) 2 (by decide) 5 none

/-- Claim C3: a second review with the same (user_id, media_type, media_id)
triple, a second list item with the same (user_id, list_type, media_type,
media_id) quadruple, and a second profile with the same non-null username
are each rejected with UniqueViolation, leaving the existing rows (in
particular the stored rating) unchanged. -/
theorem C3_unique_keys (db : DB)
    (r : Review) (hr : r ∈ db.reviews) (r2 : Review)
    (h2u : r2.user_id = r.user_id) (h2t : r2.media_type = r.media_type)
    (h2m : r2.media_id = r.media_id)
    (h2ck : mediaTypeOk r2.media_type = true) (h2rat : ratingOk r2.rating = true)
    (h2fk : r2.user_id ∈ db.users)
    (l : ListItem) (hl : l ∈ db.user_lists) (l2 : ListItem)
    (g2u : l2.user_id = l.user_id) (g2l : l2.list_type = l.list_type)
    (g2t : l2.media_type = l.media_type) (g2m : l2.media_id = l.media_id)
    (g2ck : listTypeOk l2.list_type = true) (g2ck2 : mediaTypeOk l2.media_type = true)
    (g2fk : l2.user_id ∈ db.users)
    (p : Profile) (hp : p ∈ db.profiles) (un : String) (hpu : p.username = some un)
    (p2 : Profile) (p2u : p2.username = some un) (p2fk : p2.id ∈ db.users) :
    insertReview db (some r2.user_id) r2 = .error .UniqueViolation ∧
    commit db (insertReview db (some r2.user_id) r2) = db ∧
    insertListItem db (some l2.user_id) l2 = .error .UniqueViolation ∧
    commit db (insertListItem db (some l2.user_id) l2) = db ∧
    insertProfile db (some p2.id) p2 = .error .UniqueViolation ∧
    commit db (insertProfile db (some p2.id) p2) = db := by
  have hrev : insertReview db (some r2.user_id) r2 = .error .UniqueViolation := by
    have htrip : db.reviews.any (fun x =>
        x.user_id == r2.user_id && x.media_type == r2.media_type &&
        x.media_id == r2.media_id) = true :=
      List.any_eq_true.mpr ⟨r, hr, by rw [h2u, h2t, h2m]; simp⟩
    unfold insertReview
    rw [if_pos rfl, if_pos (Bool.and_eq_true _ _ |>.mpr ⟨h2ck, h2rat⟩), if_pos h2fk]
    by_cases hpk : db.reviews.any (fun x => x.id == r2.id) = true
    · rw [if_pos hpk]
    · rw [if_neg hpk, if_pos htrip]
  have hlst : insertListItem db (some l2.user_id) l2 = .error .UniqueViolation := by
    have hquad : db.user_lists.any (fun x =>
        x.user_id == l2.user_id && x.list_type == l2.list_type &&
        x.media_type == l2.media_type && x.media_id == l2.media_id) = true :=
      List.any_eq_true.mpr ⟨l, hl, by rw [g2u, g2l, g2t, g2m]; simp⟩
    unfold insertListItem
    rw [if_pos rfl, if_pos (Bool.and_eq_true _ _ |>.mpr ⟨g2ck, g2ck2⟩), if_pos g2fk]
    by_cases hpk : db.user_lists.any (fun x => x.id == l2.id) = true
    · rw [if_pos hpk]
    · rw [if_neg hpk, if_pos hquad]
  have hprf : insertProfile db (some p2.id) p2 = .error .UniqueViolation := by
    have hun : usernameTaken db p2.username = true := by
      rw [p2u]
      exact List.any_eq_true.mpr ⟨p, hp, by rw [hpu]; simp⟩
    unfold insertProfile
    rw [if_pos rfl, if_pos p2fk]
    by_cases hpk : db.profiles.any (fun x => x.id == p2.id) = true
    · rw [if_pos hpk]
    · rw [if_neg hpk, if_pos hun]
  exact ⟨hrev, by rw [hrev]; rfl, hlst, by rw [hlst]; rfl, hprf, by rw [hprf]; rfl⟩

theorem C3_unique_keys_witness :
    insertReview db1 (some 1) { rev1 with id := 11, rating := 5 } = .error .UniqueViolation ∧
    commit db1 (insertReview db1 (some 1) { rev1 with id := 11, rating := 5 }) = db1 ∧
    insertListItem db1 (some 1) { item1 with id := 21 } = .error .UniqueViolation ∧
    commit db1 (insertListItem db1 (some 1) { item1 with id := 21 }) = db1 ∧
    insertProfile db1 (some 2) { prof1 with id := 2 } = .error .UniqueViolation ∧
    commit db1 (insertProfile db1 (some 2) { prof1 with id := 2 }) = db1 :=
  C3_unique_keys db1
    rev1 (by decide) { rev1 with id := 11, rating := 5 }
    (by decide) (by decide) (by decide) (by decide) (by decide) (by decide)
    item1 (by decide) { item1 with id := 21 }
    (by decide) (by decide) (by decide) (by decide) (by decide) (by decide) (by decide)
    prof1 (by decide) "alice" (by decide)
    { prof1 with id := 2 } (by decide) (by decide)

/-- Claim C4: in every reachable state every identity has exactly one
profile row whose id equals the identity's identifier; profile provisioning
happens in the identity-creation transaction, so a successful creation
yields both rows and a failing one leaves the database unchanged. -/
theorem C4_profile_provisioning (db : DB) (h : Reachable db) :
    (∀ u ∈ db.users, db.profiles.countP (fun p => p.id == u) = 1) ∧
    (∀ (uid : Nat) (email metaUsername : Option String) (now : Nat),
      (∀ dbn, createUser db uid email metaUsername now = .ok dbn →
        uid ∈ dbn.users ∧ dbn.profiles.countP (fun p => p.id == uid) = 1) ∧
      (∀ e, createUser db uid email metaUsername now = .error e →
        commit db (createUser db uid email metaUsername now) = db)) := by
  refine ⟨(reachable_inv h).1, ?_⟩
  intro uid email metaUsername now
  constructor
  · intro dbn hok
    obtain ⟨hu, hpk, hus, hps, _, _⟩ := createUser_ok_eq hok
    refine ⟨by rw [hus]; exact List.mem_cons_self _ _, ?_⟩
    rw [hps, List.countP_cons]
    have h0 : List.countP (fun p => p.id == uid) db.profiles = 0 :=
      List.countP_eq_zero.mpr (fun a ha => List.any_eq_false.mp hpk a ha)
    simp [h0]
  · intro e he
    rw [he]
    rfl

/-- The database produced by creating identity 1 with email
"alice@example.com" and no metadata username on an empty database. -/
def dbA : DB := ⟨[1], [⟨1, some "alice", none, 0, 0⟩], [], []⟩

theorem C4_profile_provisioning_witness :
    (∀ u ∈ dbA.users, dbA.profiles.countP (fun p => p.id == u) = 1) ∧
    commit dbA (createUser dbA 1 none none 5) = dbA :=
  ⟨(C4_profile_provisioning dbA
      (Reachable.createUser Reachable.empty
        (show createUser DB.empty 1 (some "alice@example.com") none 0 = .ok dbA from rfl))).1,
   ((C4_profile_provisioning dbA
      (Reachable.createUser Reachable.empty
        (show createUser DB.empty 1 (some "alice@example.com") none 0 = .ok dbA from rfl))).2
      1 none none 5).2 .UniqueViolation rfl⟩

/-- Claim C5: a successful identity creation provisions a profile whose id
is the new identity's id and whose username is the metadata username when
present, else the local part (text before the first '@') of the email; in
particular "alice@example.com" with no metadata username yields username
"alice". -/
theorem C5_username_derivation (db : DB) (uid : Nat) (email metaUsername : Option String)
    (now : Nat) (dbn : DB) (h : createUser db uid email metaUsername now = .ok dbn) :
    ∃ p ∈ dbn.profiles, p.id = uid ∧
      (∀ u, metaUsername = some u → p.username = some u) ∧
      (metaUsername = none →
        p.username = email.map (fun e => (⟨e.data.takeWhile (fun c => c ≠ '@')⟩ : String))) := by
  obtain ⟨_, _, _, hps, _, _⟩ := createUser_ok_eq h
  refine ⟨_, by rw [hps]; exact List.mem_cons_self _ _, rfl, ?_, ?_⟩
  · intro u hm
    simp [derivedUsername, hm]
  · intro hm
    subst hm
    cases email with
    | none => simp [derivedUsername]
    | some e => simp [derivedUsername, localPart]

theorem C5_username_derivation_witness :
    (∃ p ∈ dbA.profiles, p.id = 1 ∧
      (∀ u, (none : Option String) = some u → p.username = some u) ∧
      ((none : Option String) = none →
        p.username = (some "alice@example.com" : Option String).map
          (fun e => (⟨e.data.takeWhile (fun c => c ≠ '@')⟩ : String)))) ∧
    readProfile dbA none 1 = .ok ⟨1, some "alice", none, 0, 0⟩ :=
  ⟨C5_username_derivation DB.empty 1 (some "alice@example.com") none 0 dbA rfl, rfl⟩

/-- Claim C6: deleting identity U removes, in one atomic step, U's profile,
all reviews with user_id = U and all list items with user_id = U
(subsequent reads return NotFound), while every row owned by any other
identity survives. -/
theorem C6_cascade_delete (db : DB) (hwf : WF db) (u : Nat) :
    (∀ caller : Option Nat, readProfile (deleteUser db u) caller u = .error .NotFound) ∧
    (∀ r ∈ db.reviews, r.user_id = u → ∀ caller : Option Nat,
      readReview (deleteUser db u) caller r.id = .error .NotFound) ∧
    (∀ item ∈ db.user_lists, item.user_id = u → ∀ caller : Option Nat,
      readListItem (deleteUser db u) caller item.id = .error .NotFound) ∧
    (∀ v ∈ db.users, v ≠ u → v ∈ (deleteUser db u).users) ∧
    (∀ p ∈ db.profiles, p.id ≠ u → p ∈ (deleteUser db u).profiles) ∧
    (∀ r ∈ db.reviews, r.user_id ≠ u → r ∈ (deleteUser db u).reviews) ∧
    (∀ item ∈ db.user_lists, item.user_id ≠ u → item ∈ (deleteUser db u).user_lists) := by
  refine ⟨?_, ?_, ?_, ?_, ?_, ?_, ?_⟩
  · intro caller
    unfold readProfile
    have hnone : (deleteUser db u).profiles.find? (fun p => p.id == u) = none := by
      apply List.find?_eq_none.mpr
      intro x hx
      simp only [deleteUser, List.mem_filter] at hx
      simpa using hx.2
    rw [hnone]
  · intro r hr hru caller
    unfold readReview
    have hnone : (deleteUser db u).reviews.find? (fun x => x.id == r.id) = none := by
      apply List.find?_eq_none.mpr
      intro x hx hbeq
      simp only [deleteUser, List.mem_filter] at hx
      have hxr : x = r :=
        List.inj_on_of_nodup_map hwf.2.1 hx.1 hr (by simpa using hbeq)
      rw [hxr, hru] at hx
      simpa using hx.2
    rw [hnone]
  · intro item hmem hiu caller
    unfold readListItem
    have hnone : (deleteUser db u).user_lists.find? (fun x => x.id == item.id) = none := by
      apply List.find?_eq_none.mpr
      intro x hx hbeq
      simp only [deleteUser, List.mem_filter] at hx
      have hxi : x = item :=
        List.inj_on_of_nodup_map hwf.2.2 hx.1 hmem (by simpa using hbeq)
      rw [hxi, hiu] at hx
      simpa using hx.2
    rw [hnone]
  · intro v hv hne
    simp only [deleteUser, List.mem_filter]
    exact ⟨hv, by simpa using hne⟩
  · intro p hp hne
    simp only [deleteUser, List.mem_filter]
    exact ⟨hp, by simpa using hne⟩
  · intro r hr hne
    simp only [deleteUser, List.mem_filter]
    exact ⟨hr, by simpa using hne⟩
  · intro item hmem hne
    simp only [deleteUser, List.mem_filter]
    exact ⟨hmem, by simpa using hne⟩

theorem C6_cascade_delete_witness :
    readProfile (deleteUser db1 1) none 1 = .error .NotFound ∧
    readReview (deleteUser db1 1) none rev1.id = .error .NotFound ∧
    readListItem (deleteUser db1 1) (some 1) item1.id = .error .NotFound ∧
    2 ∈ (deleteUser db1 1).users :=
  ⟨(C6_cascade_delete db1 (by decide) 1).1 none,
   (C6_cascade_delete db1 (by decide) 1).2.1 rev1 (by decide) (by decide) none,
   (C6_cascade_delete db1 (by decide) 1).2.2.1 item1 (by decide) (by decide) (some 1),
   (C6_cascade_delete db1 (by decide) 1).2.2.2.1 2 (by decide) (by decide)⟩

/-- Claim C7: review inserts with rating 0 or 11 are rejected with
CheckViolation, rating 1 and 10 succeed when everything else is valid, a
media_type outside {movie, book, show} such as "podcast" is rejected with
CheckViolation, and no review stored in any reachable state has a rating
outside [1,10] or a media_type outside the enumeration. -/
theorem C7_check_constraints (db : DB) (r : Review)
    (hfk : r.user_id ∈ db.users)
    (hmt : mediaTypeOk r.media_type = true)
    (hpk : db.reviews.any (fun x => x.id == r.id) = false)
    (hdup : db.reviews.any (fun x =>
      x.user_id == r.user_id && x.media_type == r.media_type &&
      x.media_id == r.media_id) = false) :
    insertReview db (some r.user_id) { r with rating := 0 } = .error .CheckViolation ∧
    insertReview db (some r.user_id) { r with rating := 11 } = .error .CheckViolation ∧
    insertReview db (some r.user_id) { r with rating := 1 } =
      .ok { db with reviews := { r with rating := 1 } :: db.reviews } ∧
    insertReview db (some r.user_id) { r with rating := 10 } =
      .ok { db with reviews := { r with rating := 10 } :: db.reviews } ∧
    (∀ rat : Int, insertReview db (some r.user_id)
      { r with media_type := "podcast", rating := rat } = .error .CheckViolation) ∧
    (Reachable db → ∀ x ∈ db.reviews,
      (1 ≤ x.rating ∧ x.rating ≤ 10) ∧ mediaTypeOk x.media_type = true) := by
  have hok : ∀ rat : Int, ratingOk rat = true →
      insertReview db (some r.user_id) { r with rating := rat } =
        .ok { db with reviews := { r with rating := rat } :: db.reviews } := by
    intro rat hrat
    unfold insertReview
    rw [if_pos rfl, if_pos (Bool.and_eq_true _ _ |>.mpr ⟨hmt, hrat⟩), if_pos hfk,
      if_neg (by simp only [Bool.not_eq_true]; exact hpk),
      if_neg (by simp only [Bool.not_eq_true]; exact hdup)]
  have hbad : ∀ rat : Int, ratingOk rat = false →
      insertReview db (some r.user_id) { r with rating := rat } = .error .CheckViolation := by
    intro rat hrat
    unfold insertReview
    rw [if_pos rfl, if_neg (by simp [hrat])]
  refine ⟨hbad 0 (by decide), hbad 11 (by decide), hok 1 (by decide), hok 10 (by decide), ?_, ?_⟩
  · intro rat
    unfold insertReview
    rw [if_pos rfl, if_neg (by simp [mediaTypeOk])]
  · intro hreach x hx
    have hv := (reachable_inv hreach).2 x hx
    refine ⟨?_, hv.2⟩
    have := hv.1
    unfold ratingOk at this
    simpa using this

theorem C7_check_constraints_witness :
    insertReview db1 (some 2) ⟨30, 2, "movie", "603", 0, none, 0, 0⟩ = .error .CheckViolation ∧
    insertReview db1 (some 2) ⟨30, 2, "movie", "603", 11, none, 0, 0⟩ = .error .CheckViolation ∧
    insertReview db1 (some 2) ⟨30, 2, "movie", "603", 1, none, 0, 0⟩ =
      .ok { db1 with reviews := ⟨30, 2, "movie", "603", 1, none, 0, 0⟩ :: db1.reviews } ∧
    insertReview db1 (some 2) ⟨30, 2, "podcast", "603", 5, none, 0, 0⟩ = .error .CheckViolation := by
  have h := C7_check_constraints db1 ⟨30, 2, "movie", "603", 7, none, 0, 0⟩
    (by decide) (by decide) (by decide) (by decide)
  exact ⟨h.1, h.2.1, h.2.2.1, h.2.2.2.2.1 5⟩

/-- Claim C8: a user may hold the same media item in several list types at
once: inserting it into one list type and then into a different one both
succeed; only a second insert into the same list type is rejected with
UniqueViolation. -/
theorem C8_multi_list_types (db : DB) (u : Nat) (hu : u ∈ db.users)
    (it1 it2 : ListItem)
    (h1u : it1.user_id = u) (h2u : it2.user_id = u)
    (hmt2 : it2.media_type = it1.media_type) (hmi2 : it2.media_id = it1.media_id)
    (hlne : it1.list_type ≠ it2.list_type)
    (h1lt : listTypeOk it1.list_type = true) (h2lt : listTypeOk it2.list_type = true)
    (h1mt : mediaTypeOk it1.media_type = true)
    (hidne : it2.id ≠ it1.id)
    (h1pk : db.user_lists.any (fun x => x.id == it1.id) = false)
    (h2pk : db.user_lists.any (fun x => x.id == it2.id) = false)
    (h1q : db.user_lists.any (fun x =>
      x.user_id == it1.user_id && x.list_type == it1.list_type &&
      x.media_type == it1.media_type && x.media_id == it1.media_id) = false)
    (h2q : db.user_lists.any (fun x =>
      x.user_id == it2.user_id && x.list_type == it2.list_type &&
      x.media_type == it2.media_type && x.media_id == it2.media_id) = false)
    (it3 : ListItem)
    (h3u : it3.user_id = u) (h3l : it3.list_type = it1.list_type)
    (h3t : it3.media_type = it1.media_type) (h3m : it3.media_id = it1.media_id)
    (h3lt : listTypeOk it3.list_type = true) (h3mt : mediaTypeOk it3.media_type = true) :
    insertListItem db (some u) it1 = .ok { db with user_lists := it1 :: db.user_lists } ∧
    insertListItem { db with user_lists := it1 :: db.user_lists } (some u) it2 =
      .ok { db with user_lists := it2 :: it1 :: db.user_lists } ∧
    insertListItem { db with user_lists := it1 :: db.user_lists } (some u) it3 =
      .error .UniqueViolation := by
  refine ⟨?_, ?_, ?_⟩
  · unfold insertListItem
    rw [if_pos (by rw [h1u]), if_pos (Bool.and_eq_true _ _ |>.mpr ⟨h1lt, h1mt⟩),
      if_pos (h1u ▸ hu), if_neg (by simp only [Bool.not_eq_true]; exact h1pk),
      if_neg (by simp only [Bool.not_eq_true]; exact h1q)]
  · unfold insertListItem
    have hpk : (it1 :: db.user_lists).any (fun x => x.id == it2.id) = false := by
      apply List.any_eq_false.mpr
      intro x hx
      rcases List.mem_cons.mp hx with rfl | hx2
      · simp [Ne.symm hidne]
      · exact List.any_eq_false.mp h2pk x hx2
    have hq : (it1 :: db.user_lists).any (fun x =>
        x.user_id == it2.user_id && x.list_type == it2.list_type &&
        x.media_type == it2.media_type && x.media_id == it2.media_id) = false := by
      apply List.any_eq_false.mpr
      intro x hx
      rcases List.mem_cons.mp hx with rfl | hx2
      · simp [hlne]
      · exact List.any_eq_false.mp h2q x hx2
    rw [if_pos (by rw [h2u]), if_pos (Bool.and_eq_true _ _ |>.mpr ⟨h2lt, hmt2 ▸ h1mt⟩),
      if_pos (show it2.user_id ∈ db.users from h2u ▸ hu),
      if_neg (by simp only [Bool.not_eq_true]; exact hpk),
      if_neg (by simp only [Bool.not_eq_true]; exact hq)]
  · unfold insertListItem
    have hq : (it1 :: db.user_lists).any (fun x =>
        x.user_id == it3.user_id && x.list_type == it3.list_type &&
        x.media_type == it3.media_type && x.media_id == it3.media_id) = true :=
      List.any_eq_true.mpr ⟨it1, List.mem_cons_self _ _,
        by rw [h3u, h1u, h3l, h3t, h3m]; simp⟩
    rw [if_pos (by rw [h3u]), if_pos (Bool.and_eq_true _ _ |>.mpr ⟨h3lt, h3mt⟩),
      if_pos (show it3.user_id ∈ db.users from h3u ▸ hu)]
    by_cases hpk : (it1 :: db.user_lists).any (fun x => x.id == it3.id) = true
    · rw [if_pos hpk]
    · rw [if_neg hpk, if_pos hq]

theorem C8_multi_list_types_witness :
    insertListItem dbA (some 1) ⟨100, 1, "watchlist", "movie", "27205", "Inception", none, 0⟩ =
      .ok { dbA with user_lists :=
        [⟨100, 1, "watchlist", "movie", "27205", "Inception", none, 0⟩] } ∧
    insertListItem
        { dbA with user_lists :=
          [⟨100, 1, "watchlist", "movie", "27205", "Inception", none, 0⟩] }
        (some 1) ⟨101, 1, "favorites", "movie", "27205", "Inception", none, 0⟩ =
      .ok { dbA with user_lists :=
        [⟨101, 1, "favorites", "movie", "27205", "Inception", none, 0⟩,
         ⟨100, 1, "watchlist", "movie", "27205", "Inception", none, 0⟩] } ∧
    insertListItem
        { dbA with user_lists :=
          [⟨100, 1, "watchlist", "movie", "27205", "Inception", none, 0⟩] }
        (some 1) ⟨102, 1, "watchlist", "movie", "27205", "Inception", none, 1⟩ =
      .error .UniqueViolation :=
  C8_multi_list_types dbA 1 (by decide)
    ⟨100, 1, "watchlist", "movie", "27205", "Inception", none, 0⟩
    ⟨101, 1, "favorites", "movie", "27205", "Inception", none, 0⟩
    (by decide) (by decide) (by decide) (by decide) (by decide) (by decide) (by decide)
    (by decide) (by decide) (by decide) (by decide) (by decide) (by decide)
    ⟨102, 1, "watchlist", "movie", "27205", "Inception", none, 1⟩
    (by decide) (by decide) (by decide) (by decide) (by decide) (by decide)

/-- Claim C9: when the username derived for a new identity equals the
username of an existing profile, the whole identity-creation transaction
fails with a uniqueness violation and leaves neither an identity row nor a
profile row behind; no fallback is attempted. -/
theorem C9_username_collision (db : DB) (uid : Nat) (email metaUsername : Option String)
    (now : Nat) (un : String) (p : Profile) (hp : p ∈ db.profiles)
    (hpu : p.username = some un)
    (hder : derivedUsername email metaUsername = some un) :
    createUser db uid email metaUsername now = .error .UniqueViolation ∧
    commit db (createUser db uid email metaUsername now) = db := by
  have hmain : createUser db uid email metaUsername now = .error .UniqueViolation := by
    unfold createUser
    by_cases h1 : uid ∈ db.users
    · rw [if_pos h1]
    · rw [if_neg h1]
      by_cases h2 : db.profiles.any (fun x => x.id == uid) = true
      · rw [if_pos h2]
      · rw [if_neg h2, if_pos (show usernameTaken db (derivedUsername email metaUsername) = true by
          rw [hder]
          exact List.any_eq_true.mpr ⟨p, hp, by rw [hpu]; simp⟩)]
  exact ⟨hmain, by rw [hmain]; rfl⟩

theorem C9_username_collision_witness :
    createUser db1 3 (some "alice@other.com") none 7 = .error .UniqueViolation ∧
    commit db1 (createUser db1 3 (some "alice@other.com") none 7) = db1 :=
  C9_username_collision db1 3 (some "alice@other.com") none 7 "alice" prof1
    (by decide) (by decide) (by decide)

/-- Claim C10 (implicit): an identity created with neither a metadata
username nor an email is provisioned with a null username, and because the
uniqueness constraint on usernames only applies to non-null values, several
profiles with a null username coexist. -/
theorem C10_null_usernames (db : DB) (uid1 uid2 : Nat) (now1 now2 : Nat)
    (h1 : uid1 ∉ db.users) (h1pk : db.profiles.any (fun x => x.id == uid1) = false)
    (h2 : uid2 ∉ db.users) (hne : uid2 ≠ uid1)
    (h2pk : db.profiles.any (fun x => x.id == uid2) = false) :
    createUser db uid1 none none now1 =
      .ok { db with users := uid1 :: db.users,
                    profiles := ⟨uid1, none, none, now1, now1⟩ :: db.profiles } ∧
    createUser { db with users := uid1 :: db.users,
                         profiles := ⟨uid1, none, none, now1, now1⟩ :: db.profiles }
        uid2 none none now2 =
      .ok { db with users := uid2 :: uid1 :: db.users,
                    profiles := ⟨uid2, none, none, now2, now2⟩ ::
                      ⟨uid1, none, none, now1, now1⟩ :: db.profiles } := by
  constructor
  · unfold createUser
    rw [if_neg h1, if_neg (by simp only [Bool.not_eq_true]; exact h1pk),
      if_neg (by simp [derivedUsername, usernameTaken])]
    rfl
  · have hmem2 : uid2 ∉ uid1 :: db.users := by
      intro hc
      rcases List.mem_cons.mp hc with h | h
      · exact hne h
      · exact h2 h
    have hpk2 : ((⟨uid1, none, none, now1, now1⟩ : Profile) :: db.profiles).any
        (fun x => x.id == uid2) = false := by
      rw [List.any_cons]
      rw [show ((⟨uid1, none, none, now1, now1⟩ : Profile).id == uid2) = false from
        beq_eq_false_iff_ne.mpr (fun h => hne h.symm)]
      simpa using h2pk
    unfold createUser
    rw [if_neg hmem2, if_neg (by simp only [Bool.not_eq_true]; exact hpk2),
      if_neg (by simp [derivedUsername, usernameTaken])]
    rfl

theorem C10_null_usernames_witness :
    createUser db1 3 none none 8 =
      .ok { db1 with users := 3 :: db1.users,
                     profiles := ⟨3, none, none, 8, 8⟩ :: db1.profiles } ∧
    createUser { db1 with users := 3 :: db1.users,
                          profiles := ⟨3, none, none, 8, 8⟩ :: db1.profiles }
        4 none none 9 =
      .ok { db1 with users := 4 :: 3 :: db1.users,
                     profiles := ⟨4, none, none, 9, 9⟩ :: ⟨3, none, none, 8, 8⟩ :: db1.profiles } :=
  C10_null_usernames db1 3 4 8 9 (by decide) (by decide) (by decide) (by decide) (by decide)
